import Mathlib

/-!
Verification of `mcp_use/agents/server_manager.py` (class `ServerManager`).

The module is a coordination wrapper over two external collaborators: a
connection-multiplexing client (`MCPClient`) and a tool adapter
(`LangChainAdapter`).  We shallowly embed the class as a pure state machine:
the mutable attributes of the Python object become a `ServerManager` record,
the collaborators become an `Env` record of oracle functions, Python
exceptions become `Except` / an explicit result datatype, and each `async`
method becomes a Lean function returning its observable result together with
the updated state and a flag recording whether the adapter was invoked.
-/

set_option autoImplicit false

/-- Opaque handle for a session's protocol connector (passed to the adapter). -/
structure Connector where
  id : Nat
deriving DecidableEq, Repr

/-- A live connection handle obtained from the client; exposes its connector. -/
structure Session where
  connector : Connector
deriving DecidableEq, Repr

/-- Input schema of a management tool: either the one mandatory
`server_name : str` field, or no fields at all. -/
inductive ArgsSchema where
  | serverAction
  | listServers
  | currentServer
deriving DecidableEq, Repr

/-- A LangChain `BaseTool`: either an opaque action object produced by the
adapter, or one of the four management `StructuredTool`s built by
`get_server_management_tools` (carrying its name, description and schema). -/
inductive BaseTool where
  | adapterTool (id : Nat)
  | management (name description : String) (schema : ArgsSchema)
deriving DecidableEq, Repr

/-- Outcome of `client.get_session(name)`: a session, or a raised
`ValueError` (the specific session-not-found signal, caught locally in
`connect_to_server`), or any other raised exception (propagates to the
outer handler). -/
inductive SessionResult where
  | ok (s : Session)
  | valueError (msg : String)
  | otherError (msg : String)
deriving Repr

/-- The two collaborators consumed by `ServerManager`: the connection
client (`get_server_names`, `get_session`, `create_session`) and the
adapter (`create_langchain_tools`).  Errors are the stringified exception. -/
structure Env where
  server_names : List String
  get_session : String → SessionResult
  create_session : String → Except String Session
  create_langchain_tools : List Connector → Except String (List BaseTool)

/-- The mutable attributes of a `ServerManager` instance. -/
structure ServerManager where
  active_server : Option String
  initialized_servers : List (String × Bool)
  _server_tools : List (String × List BaseTool)
deriving DecidableEq, Repr

/-- The state set up by `ServerManager.__init__`. -/
def initialManager : ServerManager :=
  { active_server := none, initialized_servers := [], _server_tools := [] }

/-- Python `d[k]` / `k in d` lookup on an insertion-ordered dict modelled as
an association list. -/
def dictGet {α : Type} : List (String × α) → String → Option α
  | [], _ => none
  | (k, v) :: rest, key => if k = key then some v else dictGet rest key

/-- Python `d[k] = v`: replace the value at an existing key in place,
otherwise append the new binding at the end. -/
def dictInsert {α : Type} : List (String × α) → String → α → List (String × α)
  | [], key, v => [(key, v)]
  | (k, w) :: rest, key, v =>
    if k = key then (key, v) :: rest else (k, w) :: dictInsert rest key v

/-- Python truthiness of `self.active_server : str | None`: `None` and the
empty string are both falsy. -/
def optStrFalsy : Option String → Bool
  | none => true
  | some s => decide (s = "")

/-- Message `f"Server '{server_name}' not found. Available servers: {available}"`. -/
def notFoundMsg (name available : String) : String :=
  "Server '" ++ name ++ "' not found. Available servers: " ++ available

/-- Message `f"Already connected to MCP server '{server_name}'"`. -/
def alreadyConnectedMsg (name : String) : String :=
  "Already connected to MCP server '" ++ name ++ "'"

/-- Message `f"Failed to connect to server '{server_name}': {str(e)}"`. -/
def failedMsg (name err : String) : String :=
  "Failed to connect to server '" ++ name ++ "': " ++ err

/-- Message `f"Connected to MCP server '{server_name}'. {num_tools} tools are now available."`. -/
def connectedMsg (name : String) (numTools : Nat) : String :=
  "Connected to MCP server '" ++ name ++ "'. " ++ toString numTools ++
    " tools are now available."

/-- Message returned by `get_active_server` when no server is active. -/
def noActiveMsg : String :=
  "No MCP server is currently active. Use connect_to_mcp_server to connect to a server."

/-- The inner `try` of `connect_to_server`: look up an existing session,
falling back to `create_session` exactly when `get_session` raises
`ValueError`; any other exception propagates. -/
def sessionAcquire (env : Env) (name : String) : Except String Session :=
  match env.get_session name with
  | SessionResult.ok s => Except.ok s
  | SessionResult.valueError _ => env.create_session name
  | SessionResult.otherError msg => Except.error msg

/-- `ServerManager.connect_to_server`.  Returns the status message, the
post-state, and whether `adapter.create_langchain_tools` was invoked during
the call. -/
def connect_to_server (env : Env) (st : ServerManager) (server_name : String) :
    String × ServerManager × Bool :=
  if server_name ∈ env.server_names then
    if st.active_server = some server_name then
      (alreadyConnectedMsg server_name, st, false)
    else
      match sessionAcquire env server_name with
      | Except.error e => (failedMsg server_name e, st, false)
      | Except.ok session =>
        if dictGet st._server_tools server_name = none then
          match env.create_langchain_tools [session.connector] with
          | Except.error e =>
            (failedMsg server_name e,
             { st with active_server := some server_name }, true)
          | Except.ok tools =>
            (connectedMsg server_name
               ((dictGet (dictInsert st._server_tools server_name tools)
                  server_name).getD []).length,
             { st with
                 active_server := some server_name,
                 _server_tools := dictInsert st._server_tools server_name tools,
                 initialized_servers :=
                   dictInsert st.initialized_servers server_name true },
             true)
        else
          (connectedMsg server_name
             ((dictGet st._server_tools server_name).getD []).length,
           { st with active_server := some server_name }, false)
  else
    (notFoundMsg server_name
       (if env.server_names.isEmpty then "none"
        else String.intercalate ", " env.server_names),
     st, false)

/-- `ServerManager.switch_server`: an alias for `connect_to_server`. -/
def switch_server (env : Env) (st : ServerManager) (server_name : String) :
    String × ServerManager × Bool :=
  connect_to_server env st server_name

/-- `ServerManager.get_active_server`. -/
def get_active_server (st : ServerManager) : String :=
  if optStrFalsy st.active_server then noActiveMsg
  else "Currently active MCP server: " ++ st.active_server.getD ""

/-- `ServerManager.get_active_server_tools`. -/
def get_active_server_tools (st : ServerManager) : List BaseTool :=
  if optStrFalsy st.active_server then []
  else (dictGet st._server_tools (st.active_server.getD "")).getD []

/-- `ServerManager.get_server_management_tools`: the four wrapped
management actions, with their literal names, descriptions and schemas. -/
def get_server_management_tools : List BaseTool :=
  [BaseTool.management "list_mcp_servers"
     "Lists all available MCP servers that can be connected to"
     ArgsSchema.listServers,
   BaseTool.management "connect_to_mcp_server"
     "Connect to a specific MCP server to use its tools"
     ArgsSchema.serverAction,
   BaseTool.management "get_active_mcp_server"
     "Get the currently active MCP server"
     ArgsSchema.currentServer,
   BaseTool.management "switch_mcp_server"
     "Switch to a different MCP server"
     ArgsSchema.serverAction]

/-- `ServerManager.get_all_tools`: management tools followed by the active
server's tools. -/
def get_all_tools (st : ServerManager) : List BaseTool :=
  get_server_management_tools ++ get_active_server_tools st

/-- Run a sequence of `connect_to_server` calls; returns the final state and
the list of server names for which the adapter was invoked along the way. -/
def runConnects (env : Env) : ServerManager → List String → ServerManager × List String
  | st, [] => (st, [])
  | st, n :: ns =>
    ((runConnects env (connect_to_server env st n).2.1 ns).1,
     (if (connect_to_server env st n).2.2 then [n] else []) ++
       (runConnects env (connect_to_server env st n).2.1 ns).2)

/-- A sample environment in which every collaborator call succeeds. -/
def envOk : Env :=
  { server_names := ["a", "b"],
    get_session := fun _ => SessionResult.ok ⟨⟨0⟩⟩,
    create_session := fun _ => Except.ok ⟨⟨0⟩⟩,
    create_langchain_tools := fun _ => Except.ok [BaseTool.adapterTool 0] }

/-- A sample environment in which sessions succeed but the adapter's tool
materialization raises. -/
def envBad : Env :=
  { server_names := ["a"],
    get_session := fun _ => SessionResult.ok ⟨⟨0⟩⟩,
    create_session := fun _ => Except.error "unused",
    create_langchain_tools := fun _ => Except.error "boom" }

/-- A sample environment in which `get_session` raises a non-`ValueError`
fault. -/
def envDown : Env :=
  { server_names := ["a"],
    get_session := fun _ => SessionResult.otherError "down",
    create_session := fun _ => Except.ok ⟨⟨0⟩⟩,
    create_langchain_tools := fun _ => Except.ok [BaseTool.adapterTool 0] }

/-- A sample environment in which `get_session` raises `ValueError`, so the
session must be created. -/
def envNoSession : Env :=
  { server_names := ["a"],
    get_session := fun _ => SessionResult.valueError "no session",
    create_session := fun _ => Except.ok ⟨⟨7⟩⟩,
    create_langchain_tools := fun _ => Except.ok [BaseTool.adapterTool 0] }

/-- A sample environment whose registry contains the empty-string server
name, with all collaborator calls succeeding. -/
def envEmptyName : Env :=
  { server_names := [""],
    get_session := fun _ => SessionResult.ok ⟨⟨0⟩⟩,
    create_session := fun _ => Except.ok ⟨⟨0⟩⟩,
    create_langchain_tools := fun _ => Except.ok [BaseTool.adapterTool 0] }

/-! ### Helper lemmas -/

lemma strDataAppend (a b : String) : (a ++ b).data = a.data ++ b.data := by
  cases a
  cases b
  rfl

lemma head_append_char (a b : String) (c : Char) (h : a.data.head? = some c) :
    (a ++ b).data.head? = some c := by
  rw [strDataAppend]
  cases hd : a.data with
  | nil =>
    rw [hd] at h
    cases h
  | cons x xs =>
    rw [hd] at h
    simp only [List.head?_cons, Option.some.injEq] at h
    simp [h]

lemma head_notFoundMsg (name a : String) :
    (notFoundMsg name a).data.head? = some 'S' := by
  unfold notFoundMsg
  apply head_append_char
  apply head_append_char
  apply head_append_char
  rfl

lemma head_alreadyConnectedMsg (name : String) :
    (alreadyConnectedMsg name).data.head? = some 'A' := by
  unfold alreadyConnectedMsg
  apply head_append_char
  apply head_append_char
  rfl

lemma head_failedMsg (name e : String) :
    (failedMsg name e).data.head? = some 'F' := by
  unfold failedMsg
  apply head_append_char
  apply head_append_char
  apply head_append_char
  rfl

lemma head_connectedMsg (name : String) (n : Nat) :
    (connectedMsg name n).data.head? = some 'C' := by
  unfold connectedMsg
  apply head_append_char
  apply head_append_char
  apply head_append_char
  apply head_append_char
  rfl

lemma ne_of_head {m1 m2 : String} {c1 c2 : Char} (h1 : m1.data.head? = some c1)
    (h2 : m2.data.head? = some c2) (hc : c1 ≠ c2) : m1 ≠ m2 := by
  intro he
  rw [he, h2] at h1
  exact hc (Option.some.inj h1).symm

lemma dictGet_dictInsert_self {α : Type} (m : List (String × α)) (k : String) (v : α) :
    dictGet (dictInsert m k v) k = some v := by
  induction m with
  | nil => simp [dictInsert, dictGet]
  | cons p rest ih =>
    obtain ⟨k1, v1⟩ := p
    by_cases hk : k1 = k
    · simp [dictInsert, dictGet, hk]
    · simp [dictInsert, dictGet, hk, ih]

lemma dictGet_dictInsert_ne {α : Type} (m : List (String × α)) (k key : String) (v : α)
    (h : key ≠ k) : dictGet (dictInsert m k v) key = dictGet m key := by
  induction m with
  | nil => simp [dictInsert, dictGet, Ne.symm h]
  | cons p rest ih =>
    obtain ⟨k1, v1⟩ := p
    by_cases hk : k1 = k
    · subst hk
      simp [dictInsert, dictGet, Ne.symm h]
    · simp [dictInsert, dictGet, hk, ih]

lemma connect_success_mem_active (env : Env) (st : ServerManager) (name : String)
    (n : Nat) (h : (connect_to_server env st name).1 = connectedMsg name n) :
    name ∈ env.server_names ∧
      (connect_to_server env st name).2.1.active_server = some name := by
  by_cases hmem : name ∈ env.server_names
  · refine ⟨hmem, ?_⟩
    by_cases hact : st.active_server = some name
    · have h2 : (connect_to_server env st name).1 = alreadyConnectedMsg name := by
        simp [connect_to_server, hmem, hact]
      rw [h] at h2
      exact absurd h2
        (ne_of_head (head_connectedMsg name n) (head_alreadyConnectedMsg name)
          (by decide))
    · cases hs : sessionAcquire env name with
      | error e =>
        have h2 : (connect_to_server env st name).1 = failedMsg name e := by
          simp [connect_to_server, hmem, hact, hs]
        rw [h] at h2
        exact absurd h2
          (ne_of_head (head_connectedMsg name n) (head_failedMsg name e) (by decide))
      | ok s =>
        by_cases htools : dictGet st._server_tools name = none
        · cases ht : env.create_langchain_tools [s.connector] with
          | error e =>
            have h2 : (connect_to_server env st name).1 = failedMsg name e := by
              simp [connect_to_server, hmem, hact, hs, htools, ht]
            rw [h] at h2
            exact absurd h2
              (ne_of_head (head_connectedMsg name n) (head_failedMsg name e)
                (by decide))
          | ok tools =>
            simp [connect_to_server, hmem, hact, hs, htools, ht]
        · simp [connect_to_server, hmem, hact, hs, htools]
  · have h2 : (connect_to_server env st name).1 =
        notFoundMsg name
          (if env.server_names.isEmpty then "none"
           else String.intercalate ", " env.server_names) := by
      simp [connect_to_server, hmem]
    rw [h] at h2
    exact absurd h2
      (ne_of_head (head_connectedMsg name n) (head_notFoundMsg name _) (by decide))

/-! ### Claim theorems -/

/-- C4: for every server name absent from the client's registry and every
prior state, `connect_to_server` returns the not-found message naming the
unknown server and listing all known names (the literal "none" if the
registry is empty), and leaves the whole state — active server, action-set
cache and initialized-servers set — unchanged, without invoking the
adapter. -/
theorem connect_unknown_server (env : Env) (st : ServerManager) (name : String)
    (h : name ∉ env.server_names) :
    connect_to_server env st name =
      (notFoundMsg name
         (if env.server_names.isEmpty then "none"
          else String.intercalate ", " env.server_names),
       st, false) := by
  simp [connect_to_server, h]

/-- Witness for C4 at a concrete unknown name. -/
theorem connect_unknown_server_witness :
    connect_to_server envOk initialManager "c" =
      (notFoundMsg "c"
         (if envOk.server_names.isEmpty then "none"
          else String.intercalate ", " envOk.server_names),
       initialManager, false) :=
  connect_unknown_server envOk initialManager "c" (by decide)

/-- C5: `switch_server` and `connect_to_server` are observably identical for
every input and every prior state: same returned text, same post-state, and
the same adapter-invocation behaviour. -/
theorem switch_server_eq_connect_to_server (env : Env) (st : ServerManager)
    (name : String) :
    switch_server env st name = connect_to_server env st name := rfl

/-- C7: `get_all_tools` is the four management actions (list, connect,
get-active, switch, in that fixed order) followed by the active server's
cached action sequence, so its length is 4 plus the length of that cached
sequence — with 0 added when no server is active (including the falsy
empty-string name) or nothing is cached for the active server. -/
theorem get_all_tools_spec (st : ServerManager) :
    get_all_tools st = get_server_management_tools ++ get_active_server_tools st ∧
    (get_all_tools st).length =
      4 + (match st.active_server with
           | none => 0
           | some name =>
             if name = "" then 0
             else ((dictGet st._server_tools name).getD []).length) := by
  refine ⟨rfl, ?_⟩
  cases hA : st.active_server with
  | none =>
    simp [get_all_tools, get_active_server_tools, optStrFalsy, hA,
      get_server_management_tools]
  | some name =>
    by_cases hname : name = ""
    · simp [get_all_tools, get_active_server_tools, optStrFalsy, hA, hname,
        get_server_management_tools]
    · simp [get_all_tools, get_active_server_tools, optStrFalsy, hA, hname,
        get_server_management_tools]
      omega

/-- C1: if a first `connect_to_server X` completed successfully (returned
the success message), an immediately following second `connect_to_server X`
returns the already-connected message and mutates nothing: the post-state is
the very same state, the adapter is not invoked, and the action-set cache
entry for X is identical before and after the second call. -/
theorem connect_to_server_idempotent (env : Env) (st : ServerManager) (X : String)
    (n : Nat) (h : (connect_to_server env st X).1 = connectedMsg X n) :
    connect_to_server env (connect_to_server env st X).2.1 X =
      (alreadyConnectedMsg X, (connect_to_server env st X).2.1, false) ∧
    dictGet (connect_to_server env
        (connect_to_server env st X).2.1 X).2.1._server_tools X =
      dictGet (connect_to_server env st X).2.1._server_tools X := by
  obtain ⟨hmem, hact⟩ := connect_success_mem_active env st X n h
  set st1 := (connect_to_server env st X).2.1 with hst1
  have h1 : connect_to_server env st1 X = (alreadyConnectedMsg X, st1, false) := by
    simp [connect_to_server, hmem, hact]
  exact ⟨h1, by rw [h1]⟩

/-- Witness for C1: a successful connect to "a" followed by a second one. -/
theorem connect_to_server_idempotent_witness :
    connect_to_server envOk (connect_to_server envOk initialManager "a").2.1 "a" =
      (alreadyConnectedMsg "a",
       (connect_to_server envOk initialManager "a").2.1, false) ∧
    dictGet (connect_to_server envOk
        (connect_to_server envOk initialManager "a").2.1 "a").2.1._server_tools "a" =
      dictGet (connect_to_server envOk initialManager "a").2.1._server_tools "a" :=
  connect_to_server_idempotent envOk initialManager "a" 1 (by decide)

/-- C10: when `connect_to_server ""` completes successfully (the empty
string being a known server name), the active server is set to `""`, yet
`get_active_server` still returns the no-active-server prompt and
`get_active_server_tools` returns the empty sequence: both treat the falsy
empty string like no active server. -/
theorem empty_name_connect_falsy (env : Env) (st : ServerManager) (n : Nat)
    (h : (connect_to_server env st "").1 = connectedMsg "" n) :
    (connect_to_server env st "").2.1.active_server = some "" ∧
    get_active_server (connect_to_server env st "").2.1 = noActiveMsg ∧
    get_active_server_tools (connect_to_server env st "").2.1 = [] := by
  obtain ⟨hmem, hact⟩ := connect_success_mem_active env st "" n h
  refine ⟨hact, ?_, ?_⟩
  · simp [get_active_server, optStrFalsy, hact]
  · simp [get_active_server_tools, optStrFalsy, hact]

/-- Witness for C10: a registry containing the empty-string name. -/
theorem empty_name_connect_falsy_witness :
    (connect_to_server envEmptyName initialManager "").2.1.active_server = some "" ∧
    get_active_server (connect_to_server envEmptyName initialManager "").2.1 =
      noActiveMsg ∧
    get_active_server_tools (connect_to_server envEmptyName initialManager "").2.1 =
      [] :=
  empty_name_connect_falsy envEmptyName initialManager 1 (by decide)

/-- Counterexample to C2 as stated: for the known server "a", a fresh
manager and an adapter that raises during tool materialization,
`connect_to_server` catches the failure and returns the failure message, but
does not leave the active server unchanged — it changes from `none` to
`some "a"`. -/
theorem connect_failure_mutates_active :
    (connect_to_server envBad initialManager "a").1 = failedMsg "a" "boom" ∧
    initialManager.active_server = none ∧
    (connect_to_server envBad initialManager "a").2.1.active_server = some "a" := by
  decide

/-- C2 amended: for a known, non-active server name, a failure during
session acquisition is caught and returns the failure message with the
server name and error text, leaving the whole state unchanged; a failure
during tool materialization likewise returns the failure message and leaves
the action-set cache and initialized-servers set unchanged, but the active
server has already been set to the target name on that path. -/
theorem connect_failure_paths (env : Env) (st : ServerManager) (name e : String)
    (hmem : name ∈ env.server_names) (hact : st.active_server ≠ some name) :
    (sessionAcquire env name = Except.error e →
      connect_to_server env st name = (failedMsg name e, st, false)) ∧
    (∀ s : Session, sessionAcquire env name = Except.ok s →
      dictGet st._server_tools name = none →
      env.create_langchain_tools [s.connector] = Except.error e →
      connect_to_server env st name =
        (failedMsg name e, { st with active_server := some name }, true)) := by
  constructor
  · intro hs
    simp [connect_to_server, hmem, hact, hs]
  · intro s hs htools ht
    simp [connect_to_server, hmem, hact, hs, htools, ht]

/-- Witness for the amended C2: both failure paths at concrete inputs. -/
theorem connect_failure_paths_witness :
    connect_to_server envDown initialManager "a" =
      (failedMsg "a" "down", initialManager, false) ∧
    connect_to_server envBad initialManager "a" =
      (failedMsg "a" "boom",
       { initialManager with active_server := some "a" }, true) :=
  ⟨(connect_failure_paths envDown initialManager "a" "down" (by decide)
      (by decide)).1 rfl,
   (connect_failure_paths envBad initialManager "a" "boom" (by decide)
      (by decide)).2 ⟨⟨0⟩⟩ rfl rfl rfl⟩

/-- C3: for a known server X that is not active and has no cache entry, if
the session is acquired but the adapter's tool materialization fails, the
call returns the failure message, the active server ends up equal to X while
the cache still has no entry for X, and `get_active_server_tools` then
returns the empty sequence. -/
theorem connect_materialization_failure (env : Env) (st : ServerManager)
    (X e : String) (s : Session)
    (hmem : X ∈ env.server_names) (hact : st.active_server ≠ some X)
    (htools : dictGet st._server_tools X = none)
    (hs : sessionAcquire env X = Except.ok s)
    (ht : env.create_langchain_tools [s.connector] = Except.error e) :
    (connect_to_server env st X).1 = failedMsg X e ∧
    (connect_to_server env st X).2.1.active_server = some X ∧
    dictGet (connect_to_server env st X).2.1._server_tools X = none ∧
    get_active_server_tools (connect_to_server env st X).2.1 = [] := by
  have hc : connect_to_server env st X =
      (failedMsg X e, { st with active_server := some X }, true) := by
    simp [connect_to_server, hmem, hact, hs, htools, ht]
  rw [hc]
  refine ⟨rfl, rfl, htools, ?_⟩
  by_cases hX : X = ""
  · simp [get_active_server_tools, optStrFalsy, hX]
  · simp [get_active_server_tools, optStrFalsy, hX, htools]

/-- Witness for C3 at a concrete failing adapter. -/
theorem connect_materialization_failure_witness :
    (connect_to_server envBad initialManager "a").1 = failedMsg "a" "boom" ∧
    (connect_to_server envBad initialManager "a").2.1.active_server = some "a" ∧
    dictGet (connect_to_server envBad initialManager "a").2.1._server_tools "a" =
      none ∧
    get_active_server_tools (connect_to_server envBad initialManager "a").2.1 =
      [] :=
  connect_materialization_failure envBad initialManager "a" "boom" ⟨⟨0⟩⟩
    (by decide) (by decide) rfl rfl rfl

/-- C9: if `connect_to_server X` sets X active but tool materialization
fails, every immediately following `connect_to_server X` or
`switch_server X` made while X is still active returns the
already-connected message without mutating state and without invoking the
adapter, so X's action set stays absent from the cache and
`get_active_server_tools` stays empty. -/
theorem sticky_failure_short_circuit (env : Env) (st : ServerManager)
    (X e : String) (s : Session)
    (hmem : X ∈ env.server_names) (hact : st.active_server ≠ some X)
    (htools : dictGet st._server_tools X = none)
    (hs : sessionAcquire env X = Except.ok s)
    (ht : env.create_langchain_tools [s.connector] = Except.error e) :
    (connect_to_server env st X).2.1.active_server = some X ∧
    connect_to_server env (connect_to_server env st X).2.1 X =
      (alreadyConnectedMsg X, (connect_to_server env st X).2.1, false) ∧
    switch_server env (connect_to_server env st X).2.1 X =
      (alreadyConnectedMsg X, (connect_to_server env st X).2.1, false) ∧
    dictGet (connect_to_server env st X).2.1._server_tools X = none ∧
    get_active_server_tools (connect_to_server env st X).2.1 = [] := by
  have hc : connect_to_server env st X =
      (failedMsg X e, { st with active_server := some X }, true) := by
    simp [connect_to_server, hmem, hact, hs, htools, ht]
  rw [hc]
  have h2 : connect_to_server env { st with active_server := some X } X =
      (alreadyConnectedMsg X, { st with active_server := some X }, false) := by
    simp [connect_to_server, hmem]
  refine ⟨rfl, h2, h2, htools, ?_⟩
  by_cases hX : X = ""
  · simp [get_active_server_tools, optStrFalsy, hX]
  · simp [get_active_server_tools, optStrFalsy, hX, htools]

/-- Witness for C9 at a concrete failing adapter. -/
theorem sticky_failure_short_circuit_witness :
    (connect_to_server envBad initialManager "a").2.1.active_server = some "a" ∧
    connect_to_server envBad (connect_to_server envBad initialManager "a").2.1 "a" =
      (alreadyConnectedMsg "a",
       (connect_to_server envBad initialManager "a").2.1, false) ∧
    switch_server envBad (connect_to_server envBad initialManager "a").2.1 "a" =
      (alreadyConnectedMsg "a",
       (connect_to_server envBad initialManager "a").2.1, false) ∧
    dictGet (connect_to_server envBad initialManager "a").2.1._server_tools "a" =
      none ∧
    get_active_server_tools (connect_to_server envBad initialManager "a").2.1 =
      [] :=
  sticky_failure_short_circuit envBad initialManager "a" "boom" ⟨⟨0⟩⟩
    (by decide) (by decide) rfl rfl rfl

lemma connect_preserves_cache_entry (env : Env) (st : ServerManager)
    (name X : String) (ts : List BaseTool)
    (h : dictGet st._server_tools X = some ts) :
    dictGet (connect_to_server env st name).2.1._server_tools X = some ts ∧
    ((connect_to_server env st name).2.2 = true → name ≠ X) := by
  by_cases hmem : name ∈ env.server_names
  · by_cases hact : st.active_server = some name
    · constructor
      · simp [connect_to_server, hmem, hact, h]
      · simp [connect_to_server, hmem, hact]
    · cases hs : sessionAcquire env name with
      | error e =>
        constructor
        · simp [connect_to_server, hmem, hact, hs, h]
        · simp [connect_to_server, hmem, hact, hs]
      | ok s =>
        by_cases htools : dictGet st._server_tools name = none
        · have hne : name ≠ X := by
            intro hEq
            rw [hEq, h] at htools
            cases htools
          cases ht : env.create_langchain_tools [s.connector] with
          | error e =>
            constructor
            · simp [connect_to_server, hmem, hact, hs, htools, ht, h]
            · intro _
              exact hne
          | ok tools =>
            constructor
            · simp only [connect_to_server, hmem, hact, hs, htools, ht]
              simp only [if_pos hmem, if_true]
              simp [dictGet_dictInsert_ne st._server_tools name X tools
                (Ne.symm hne), h]
            · intro _
              exact hne
        · constructor
          · simp [connect_to_server, hmem, hact, hs, htools, h]
          · simp [connect_to_server, hmem, hact, hs, htools]
  · constructor
    · simp [connect_to_server, hmem, h]
    · simp [connect_to_server, hmem]

lemma runConnects_preserves_cache_entry (env : Env) (X : String)
    (ts : List BaseTool) :
    ∀ (st : ServerManager) (ns : List String),
      dictGet st._server_tools X = some ts →
      dictGet (runConnects env st ns).1._server_tools X = some ts ∧
      X ∉ (runConnects env st ns).2 := by
  intro st ns
  induction ns generalizing st with
  | nil =>
    intro h
    exact ⟨h, by simp [runConnects]⟩
  | cons n rest ih =>
    intro h
    obtain ⟨h1, h2⟩ := connect_preserves_cache_entry env st n X ts h
    obtain ⟨h3, h4⟩ := ih (connect_to_server env st n).2.1 h1
    constructor
    · simpa [runConnects] using h3
    · by_cases hb : (connect_to_server env st n).2.2 = true
      · have hne := h2 hb
        simp [runConnects, hb, h4]
        exact fun hEq => hne hEq.symm
      · simp [runConnects, hb, h4]

/-- C6: when the first successful `connect_to_server X` materializes the
adapter's action list `ts` for X, the cache entry for X is exactly `ts`; and
for every sequence of later `connect_to_server` calls — repeats of X,
connects to other servers, or connects back to X — the entry for X is still
exactly `ts` and the adapter is never invoked for X again: the cache is
append-only. -/
theorem materialization_once (env : Env) (st : ServerManager) (X : String)
    (s : Session) (ts : List BaseTool)
    (hmem : X ∈ env.server_names) (hact : st.active_server ≠ some X)
    (htools : dictGet st._server_tools X = none)
    (hs : sessionAcquire env X = Except.ok s)
    (ht : env.create_langchain_tools [s.connector] = Except.ok ts) :
    dictGet (connect_to_server env st X).2.1._server_tools X = some ts ∧
    ∀ ns : List String,
      dictGet (runConnects env
          (connect_to_server env st X).2.1 ns).1._server_tools X = some ts ∧
      X ∉ (runConnects env (connect_to_server env st X).2.1 ns).2 := by
  have hc : dictGet (connect_to_server env st X).2.1._server_tools X = some ts := by
    simp [connect_to_server, hmem, hact, hs, htools, ht, dictGet_dictInsert_self]
  exact ⟨hc, fun ns => runConnects_preserves_cache_entry env X ts _ ns hc⟩

/-- Witness for C6: connect to "a", then to "b", then back to "a". -/
theorem materialization_once_witness :
    dictGet (connect_to_server envOk initialManager "a").2.1._server_tools "a" =
      some [BaseTool.adapterTool 0] ∧
    dictGet (runConnects envOk (connect_to_server envOk initialManager "a").2.1
        ["b", "a"]).1._server_tools "a" = some [BaseTool.adapterTool 0] ∧
    "a" ∉ (runConnects envOk (connect_to_server envOk initialManager "a").2.1
        ["b", "a"]).2 :=
  ⟨(materialization_once envOk initialManager "a" ⟨⟨0⟩⟩ [BaseTool.adapterTool 0]
      (by decide) (by decide) rfl rfl rfl).1,
   ((materialization_once envOk initialManager "a" ⟨⟨0⟩⟩ [BaseTool.adapterTool 0]
      (by decide) (by decide) rfl rfl rfl).2 ["b", "a"]).1,
   ((materialization_once envOk initialManager "a" ⟨⟨0⟩⟩ [BaseTool.adapterTool 0]
      (by decide) (by decide) rfl rfl rfl).2 ["b", "a"]).2⟩

/-- C8: for a known, non-active server name, session acquisition first tries
`get_session`; it falls back to `create_session` exactly when `get_session`
raises the `ValueError` not-found signal (on a session or on any other
fault the result is fixed independently of `create_session`), and the
not-found signal's text is never surfaced: the result of
`connect_to_server` does not depend on the `ValueError` message. -/
theorem session_lookup_fallback (env : Env) (st : ServerManager) (name : String)
    (_hmem : name ∈ env.server_names) (_hact : st.active_server ≠ some name) :
    (∀ msg, env.get_session name = SessionResult.valueError msg →
      sessionAcquire env name = env.create_session name) ∧
    (∀ s, env.get_session name = SessionResult.ok s →
      sessionAcquire env name = Except.ok s ∧
      ∀ f, sessionAcquire { env with create_session := f } name = Except.ok s) ∧
    (∀ msg, env.get_session name = SessionResult.otherError msg →
      sessionAcquire env name = Except.error msg ∧
      ∀ f, sessionAcquire { env with create_session := f } name =
        Except.error msg) ∧
    (∀ msg1 msg2,
      connect_to_server
        { env with get_session := fun n =>
            if n = name then SessionResult.valueError msg1 else env.get_session n }
        st name =
      connect_to_server
        { env with get_session := fun n =>
            if n = name then SessionResult.valueError msg2 else env.get_session n }
        st name) := by
  refine ⟨?_, ?_, ?_, ?_⟩
  · intro msg h
    simp [sessionAcquire, h]
  · intro s h
    exact ⟨by simp [sessionAcquire, h], fun f => by simp [sessionAcquire, h]⟩
  · intro msg h
    exact ⟨by simp [sessionAcquire, h], fun f => by simp [sessionAcquire, h]⟩
  · intro msg1 msg2
    simp [connect_to_server, sessionAcquire]

/-- Witness for C8: a `ValueError` from `get_session` makes the result of
session acquisition that of `create_session`, and the `ValueError` text does
not influence the result of `connect_to_server`. -/
theorem session_lookup_fallback_witness :
    sessionAcquire envNoSession "a" = envNoSession.create_session "a" ∧
    connect_to_server
      { envNoSession with get_session := fun n =>
          if n = "a" then SessionResult.valueError "m1"
          else envNoSession.get_session n }
      initialManager "a" =
    connect_to_server
      { envNoSession with get_session := fun n =>
          if n = "a" then SessionResult.valueError "m2"
          else envNoSession.get_session n }
      initialManager "a" :=
  ⟨(session_lookup_fallback envNoSession initialManager "a" (by decide)
      (by decide)).1 "no session" rfl,
   (session_lookup_fallback envNoSession initialManager "a" (by decide)
      (by decide)).2.2.2 "m1" "m2"⟩
